import Mathlib

/-!
Verification development for the Ansible playbook generator service
(`src/server/ai_providers.py`, `src/server/playbook_generator.py`,
`src/server/api.py`).

The Python code is shallowly embedded: Python `str` is Lean `String`
(or `List Char` where character-level slicing matters), Python `dict`/
JSON values are an inductive `Json` type, `None`-able parameters are
`Option`, and code that can raise returns `Except PyErr`.  Python
truthiness of strings/lists is modelled explicitly.  The external YAML
(de)serializer (PyYAML) is a boundary collaborator; where a claim needs
it, it is passed as an explicit parameter, and the structural document
pipeline treats a dump-then-parse round trip as the identity on
structured documents.
-/

namespace W7RP

/-- Python truthiness of an optional string: `None` and `""` are falsy. -/
def pyTruthyStr : Option String → Bool
  | none => false
  | some s => s != ""

/-- Python truthiness of an optional list: `None` and `[]` are falsy. -/
def pyTruthyList {α : Type} : Option (List α) → Bool
  | none => false
  | some l => !l.isEmpty

/-- Python `a or b` on optional strings: returns `a` when truthy, else `b`. -/
def pyOrOpt (a b : Option String) : Option String :=
  if pyTruthyStr a then a else b

/-- Python `a or dflt` where the result is used as a plain string
(`model or self.default_model` in `AIProvider.__init__`). -/
def pyOrStr (a : Option String) (dflt : String) : String :=
  if pyTruthyStr a then a.getD "" else dflt

/-- Whether the first character list is a prefix of the second. -/
def isPrefixOfL : List Char → List Char → Bool
  | [], _ => true
  | _ :: _, [] => false
  | c :: cs, d :: ds => c == d && isPrefixOfL cs ds

/-- Whether the pattern occurs as a contiguous run of the text. -/
def occursIn (pat : List Char) : List Char → Bool
  | [] => pat.isEmpty
  | c :: rest => isPrefixOfL pat (c :: rest) || occursIn pat rest

/-- Python substring test `pat in s` on strings (`"" in s` is true). -/
def substrOf (pat s : String) : Bool :=
  occursIn pat.data s.data

/-- Python `s.lower()` (the prompts and provider names are ASCII, where
`Char.toLower` agrees with Python). -/
def pyLower (s : String) : String :=
  String.mk (s.data.map Char.toLower)

/-- JSON values, as returned by `response.json()` and as used for the
parsed YAML documents (numbers restricted to integers, which covers
every literal in the source). -/
inductive Json where
  | null
  | bool (b : Bool)
  | num (n : Int)
  | str (s : String)
  | arr (elems : List Json)
  | obj (fields : List (String × Json))

/-- Whether a value is a Python `dict` (`isinstance(x, dict)`). -/
def Json.isDict : Json → Bool
  | .obj _ => true
  | _ => false

/-- Whether a value is a Python `list` (`isinstance(x, list)`). -/
def Json.isList : Json → Bool
  | .arr _ => true
  | _ => false

/-- Python runtime errors that the provider response-extraction code can
raise.  `valueError` carries the message of the `ValueError` the source
raises on an unrecognized response shape. -/
inductive PyErr where
  | typeError
  | keyError
  | indexError
  | valueError (msg : String)

/-- Python membership `key in v` for a string key: dict key lookup, list
membership, substring test on strings; raises `TypeError` on
non-container values (exactly as CPython does). -/
def pyIn (key : String) (v : Json) : Except PyErr Bool :=
  match v with
  | .obj fields => .ok (fields.any (fun f => f.1 == key))
  | .arr elems => .ok (elems.any (fun x => match x with | .str s => s == key | _ => false))
  | .str s => .ok (substrOf key s)
  | _ => .error .typeError

/-- Python subscript `v[key]` for a string key: dict lookup (missing key
raises `KeyError`); any non-dict raises `TypeError`. -/
def pySub (v : Json) (key : String) : Except PyErr Json :=
  match v with
  | .obj fields =>
    match fields.find? (fun f => f.1 == key) with
    | some f => .ok f.2
    | none => .error .keyError
  | _ => .error .typeError

/-- Python subscript `v[i]` for an integer index on a list. -/
def pyIdx (v : Json) (i : Nat) : Except PyErr Json :=
  match v with
  | .arr elems =>
    match elems.get? i with
    | some x => .ok x
    | none => .error .indexError
  | _ => .error .typeError

/-- Python `len(v)` on containers. -/
def pyLen (v : Json) : Except PyErr Nat :=
  match v with
  | .arr elems => .ok elems.length
  | .obj fields => .ok fields.length
  | .str s => .ok s.length
  | _ => .error .typeError

/-- Evaluates one conjunct of the validation chain: a false conjunct
makes the whole `if` condition false, upon which the source raises
`ValueError(msg)`. -/
def need (b : Bool) (msg : String) : Except PyErr Unit :=
  if b then .ok () else .error (.valueError msg)

/-- GeminiProvider._extract_text.  The conjuncts of the source's `if`
are evaluated left to right with Python short-circuit semantics; any
sub-expression may itself raise (`pyIn` / `pySub` model that). -/
def gemini_extract (data : Json) : Except PyErr Json := do
  let msg := "Invalid response structure from Gemini API"
  need data.isDict msg
  let b1 ← pyIn "candidates" data
  need b1 msg
  let cands ← pySub data "candidates"
  need cands.isList msg
  let n ← pyLen cands
  need (decide (0 < n)) msg
  let c0 ← pyIdx cands 0
  let b2 ← pyIn "content" c0
  need b2 msg
  let content ← pySub c0 "content"
  let b3 ← pyIn "parts" content
  need b3 msg
  let parts ← pySub content "parts"
  need parts.isList msg
  let np ← pyLen parts
  need (decide (0 < np)) msg
  let p0 ← pyIdx parts 0
  let b4 ← pyIn "text" p0
  need b4 msg
  pySub p0 "text"

/-- OpenAIProvider._extract_text. -/
def openai_extract (data : Json) : Except PyErr Json := do
  let msg := "Invalid response structure from OpenAI API"
  need data.isDict msg
  let b1 ← pyIn "choices" data
  need b1 msg
  let choices ← pySub data "choices"
  need choices.isList msg
  let n ← pyLen choices
  need (decide (0 < n)) msg
  let c0 ← pyIdx choices 0
  let b2 ← pyIn "message" c0
  need b2 msg
  let message ← pySub c0 "message"
  let b3 ← pyIn "content" message
  need b3 msg
  pySub message "content"

/-- AnthropicProvider._extract_text.  The source tests a negated
or-chain; short-circuit evaluation of the disjuncts is the same chain of
guards (note there is no `isinstance(data, dict)` check here). -/
def anthropic_extract (data : Json) : Except PyErr Json := do
  let msg := "Invalid response structure from Anthropic API"
  let b1 ← pyIn "content" data
  need b1 msg
  let content ← pySub data "content"
  need content.isList msg
  let n ← pyLen content
  need (decide (0 < n)) msg
  let c0 ← pyIdx content 0
  let b2 ← pyIn "text" c0
  need b2 msg
  pySub c0 "text"

/-- A constructed provider client: its fixed name (`get_name`), the
resolved API key and the resolved model. -/
structure AIProvider where
  name : String
  api_key : String
  model : String

/-- GeminiProvider(key, model): `self.model = model or self.default_model`. -/
def mkGemini (key : String) (model : Option String) : AIProvider :=
  { name := "gemini", api_key := key, model := pyOrStr model "gemini-2.5-flash" }

/-- OpenAIProvider(key, model). -/
def mkOpenAI (key : String) (model : Option String) : AIProvider :=
  { name := "openai", api_key := key, model := pyOrStr model "gpt-4" }

/-- AnthropicProvider(key, model). -/
def mkAnthropic (key : String) (model : Option String) : AIProvider :=
  { name := "anthropic", api_key := key, model := pyOrStr model "claude-3-sonnet-20240229" }

/-- create_provider from ai_providers.py.  `getenv` is the ambient
`os.getenv` environment, passed explicitly.  A raised `ValueError(msg)`
is `.error msg`. -/
def create_provider (getenv : String → Option String)
    (provider model api_key : Option String) : Except String AIProvider :=
  let provider_name := pyLower ((pyOrOpt provider (some "gemini")).getD "")
  if provider_name == "gemini" then
    let key := pyOrOpt api_key (pyOrOpt (getenv "GEMINI_API_KEY") (getenv "GOOGLE_API_KEY"))
    if !pyTruthyStr key then
      .error "GEMINI_API_KEY or GOOGLE_API_KEY environment variable required"
    else
      .ok (mkGemini (key.getD "") model)
  else if provider_name == "openai" then
    let key := pyOrOpt api_key (getenv "OPENAI_API_KEY")
    if !pyTruthyStr key then
      .error "OPENAI_API_KEY environment variable required"
    else
      .ok (mkOpenAI (key.getD "") model)
  else if provider_name == "anthropic" then
    let key := pyOrOpt api_key (getenv "ANTHROPIC_API_KEY")
    if !pyTruthyStr key then
      .error "ANTHROPIC_API_KEY environment variable required"
    else
      .ok (mkAnthropic (key.getD "") model)
  else
    .error ("Unknown provider: " ++ provider_name ++ ". Supported: gemini, openai, anthropic")

/-- The `ValueError` message raised by `create_provider` when no
credential is available for the given (lowercase) provider name. -/
def missing_credential_message (name : String) : String :=
  if name = "gemini" then "GEMINI_API_KEY or GOOGLE_API_KEY environment variable required"
  else if name = "openai" then "OPENAI_API_KEY environment variable required"
  else "ANTHROPIC_API_KEY environment variable required"

/-- PlaybookType enum from playbook_generator.py. -/
inductive PlaybookType where
  | KUBERNETES
  | DOCKER
  | SYSTEM
  | NETWORK
  | DATABASE
  | MONITORING
  | SECURITY
  | CICD

/-- The `.value` string of each enum member. -/
def PlaybookType.value : PlaybookType → String
  | .KUBERNETES => "kubernetes"
  | .DOCKER => "docker"
  | .SYSTEM => "system"
  | .NETWORK => "network"
  | .DATABASE => "database"
  | .MONITORING => "monitoring"
  | .SECURITY => "security"
  | .CICD => "cicd"

/-- The enum constructor `PlaybookType(value)`: `none` models the
`ValueError` it raises for a string outside the enum. -/
def playbook_type_of_value (s : String) : Option PlaybookType :=
  if s = "kubernetes" then some .KUBERNETES
  else if s = "docker" then some .DOCKER
  else if s = "system" then some .SYSTEM
  else if s = "network" then some .NETWORK
  else if s = "database" then some .DATABASE
  else if s = "monitoring" then some .MONITORING
  else if s = "security" then some .SECURITY
  else if s = "cicd" then some .CICD
  else none

/-- One task (or handler) dict of a play: its `name`, the single action
module key (`module`) with its argument value (`args`, arbitrary YAML),
and the control attributes that occur in this code base.  Attributes
absent from the Python dict are `none` / `[]`.  The YAML `when` key is
the field `when_`. -/
structure Task where
  name : String
  module : String
  args : Json
  tags : List String := []
  notify : Option String := none
  loop : Option Json := none
  when_ : Option String := none
  become_user : Option String := none

/-- One play dict: keys absent from the Python dict are `none`. -/
structure Play where
  name : String
  hosts : String
  gather_facts : Option Bool := none
  become : Option Bool := none
  vars : Option (List (String × Json)) := none
  tasks : List Task
  handlers : Option (List Task) := none

/-- PlaybookContext dataclass (with the `__post_init__` defaults).  The
source field `variables` is spelled `variables_` here because
`variables` is a reserved word in Lean. -/
structure PlaybookContext where
  prompt : String
  playbook_type : Option PlaybookType := none
  target_hosts : String := "all"
  environment : String := "production"
  variables_ : List (String × Json) := []
  tags : List String := []
  requirements : List String := []

/-- One atom of a compiled regex alternative: a literal character, the
optional wildcard `.?`, or a character class such as `[ae]`.  This is
exactly the vocabulary the source's patterns use inside `\b(...)\b`. -/
inductive RAtom where
  | lit (c : Char)
  | anyOpt
  | cls (cs : List Char)

/-- The atoms of a literal word. -/
def lits (s : String) : List RAtom := s.data.map RAtom.lit

/-- A `\w` character for the `\b` boundaries (`[A-Za-z0-9_]`; the
prompts contain only ASCII). -/
def wordChar (c : Char) : Bool := c.isAlphanum || c == '_'

/-- Matches a list of atoms against a character list, returning every
possible remainder (the `.?` wildcard branches on consuming zero or one
character).  Comparison lowers the text character, modelling `re.I`
against the lowercase pattern words. -/
def matchAtoms : List RAtom → List Char → List (List Char)
  | [], rest => [rest]
  | .lit c :: as, d :: rest => if d.toLower == c then matchAtoms as rest else []
  | .lit _ :: _, [] => []
  | .anyOpt :: as, rest =>
    matchAtoms as rest ++ (match rest with
      | _ :: rest2 => matchAtoms as rest2
      | [] => [])
  | .cls cs :: as, d :: rest => if cs.contains d.toLower then matchAtoms as rest else []
  | .cls _ :: _, [] => []

/-- Does one alternative match at the head of `chars` with a word
boundary after it?  Every alternative in the source ends in a word
character, so the trailing `\b` holds exactly when the remainder starts
with a non-word character or is empty. -/
def altMatchesAt (alt : List RAtom) (chars : List Char) : Bool :=
  (matchAtoms alt chars).any fun rest =>
    match rest with
    | [] => true
    | c :: _ => !wordChar c

/-- A word boundary before the match: every alternative starts with a
word character, so the leading `\b` holds exactly when the preceding
character is absent or non-word. -/
def boundaryBefore : Option Char → Bool
  | none => true
  | some c => !wordChar c

/-- re.search of `\b(alt|alt|...)\b` over the text: try every position. -/
def searchAux (alts : List (List RAtom)) : Option Char → List Char → Bool
  | prev, chars =>
    (boundaryBefore prev && alts.any (fun a => altMatchesAt a chars))
    || (match chars with
        | [] => false
        | c :: rest => searchAux alts (some c) rest)

/-- pattern.search(prompt) for a compiled `\b(...)\b` pattern. -/
def regex_search (alts : List (List RAtom)) (text : String) : Bool :=
  searchAux alts none text.data

/-- The `_compile_patterns` dict, in insertion (= iteration) order.
Each entry is the alternative list of the `\b(...)\b` regex. -/
def category_patterns : List (String × List (List RAtom)) :=
  [ ("kubernetes",
      [lits "k8s", lits "kubernetes", lits "kubectl", lits "pod", lits "deployment",
       lits "service", lits "ingress"]),
    ("docker",
      [lits "docker", lits "container", lits "compose", lits "dockerfile", lits "registry"]),
    ("database",
      [lits "mysql", lits "postgres", lits "mongodb", lits "redis", lits "database", lits "db"]),
    ("monitoring",
      [lits "prometheus", lits "grafana", lits "monitoring", lits "metrics", lits "alerts"]),
    ("security",
      [lits "security", lits "firewall", lits "ssh", lits "tls", lits "certificate", lits "vault"]),
    ("network",
      [lits "network", lits "routing", lits "dns",
       lits "load" ++ [RAtom.anyOpt] ++ lits "balanc",
       lits "nginx", lits "haproxy"]) ]

/-- The playbook-type detection loop of `analyze_prompt`: first matching
pattern wins; a matching name that is not a valid enum value is skipped
(the `except ValueError: pass` branch — never taken for these six). -/
def detect_type_loop : List (String × List (List RAtom)) → String → Option PlaybookType
  | [], _ => none
  | (nm, pat) :: rest, prompt =>
    if regex_search pat prompt then
      match playbook_type_of_value nm with
      | some t => some t
      | none => detect_type_loop rest prompt
    else detect_type_loop rest prompt

/-- The `_extract_requirements` pattern dict, in iteration order. -/
def requirement_patterns : List (String × List (List RAtom)) :=
  [ ("high_availability",
      [lits "high" ++ [RAtom.anyOpt] ++ lits "availability",
       lits "ha", lits "redundant", lits "failover"]),
    ("scalability",
      [lits "scal" ++ [RAtom.cls ['a', 'e']] ++ lits "bl",
       lits "auto" ++ [RAtom.anyOpt] ++ lits "scal",
       lits "elastic"]),
    ("security",
      [lits "secur", lits "encrypt", lits "tls", lits "ssl", lits "firewall"]),
    ("monitoring",
      [lits "monitor", lits "metric", lits "log", lits "observ"]),
    ("backup",
      [lits "backup", lits "restore",
       lits "disaster" ++ [RAtom.anyOpt] ++ lits "recovery"]),
    ("performance",
      [lits "perform", lits "optimiz", lits "cache", lits "fast"]) ]

/-- PlaybookGenerator._extract_requirements. -/
def extract_requirements (prompt : String) : List String :=
  (requirement_patterns.filter (fun p => regex_search p.2 prompt)).map (fun p => p.1)

/-- The `keyword_to_tags` dict of `_generate_tags`, in iteration order. -/
def keyword_to_tags : List (String × List String) :=
  [ ("install", ["install", "setup"]),
    ("configure", ["configure", "config"]),
    ("deploy", ["deploy", "rollout"]),
    ("update", ["update", "upgrade"]),
    ("backup", ["backup"]),
    ("restore", ["restore"]),
    ("monitor", ["monitoring"]),
    ("secure", ["security"]) ]

/-- PlaybookGenerator._generate_tags.  The final `list(set(tags))`
deduplicates with an interpreter-chosen order (string hashing is
randomized); `eraseDups` is one deduplication — no claim, and no caller
in the source, depends on the order. -/
def generate_tags (prompt : String) : List String :=
  let tags := keyword_to_tags.foldl
    (fun acc kv => if substrOf kv.1 (pyLower prompt) then acc ++ kv.2 else acc)
    ["setup"]
  tags.eraseDups

/-- PlaybookGenerator.analyze_prompt. -/
def analyze_prompt (prompt : String) : PlaybookContext :=
  let ptype := detect_type_loop category_patterns prompt
  let env :=
    if substrOf "production" (pyLower prompt) then "production"
    else if substrOf "staging" (pyLower prompt) then "staging"
    else if substrOf "development" (pyLower prompt) || substrOf "dev" (pyLower prompt) then
      "development"
    else "production"
  { prompt := prompt
    playbook_type := ptype
    environment := env
    requirements := extract_requirements prompt
    tags := generate_tags prompt }

/-- The parsed YAML value of `PlaybookGenerator._kubernetes_template`
(one play).  Jinja braces and quotes inside scalars are kept verbatim
(written with `\x7b`, `\x7d`, `\x27` escapes). -/
def kubernetes_template : List Play :=
  [ { name := "Kubernetes Deployment Playbook"
      hosts := "\x7b\x7b target_hosts | default(\x27localhost\x27) \x7d\x7d"
      gather_facts := some true
      vars := some
        [ ("kube_namespace", .str "\x7b\x7b namespace | default(\x27default\x27) \x7d\x7d"),
          ("app_name", .str "\x7b\x7b application_name \x7d\x7d"),
          ("replicas", .str "\x7b\x7b replica_count | default(3) \x7d\x7d"),
          ("image", .str "\x7b\x7b container_image \x7d\x7d") ]
      tasks :=
        [ { name := "Ensure kubectl is installed", module := "package"
            args := .obj [("name", .str "kubectl"), ("state", .str "present")]
            tags := ["setup", "kubectl"] },
          { name := "Create namespace", module := "kubernetes.core.k8s"
            args := .obj
              [ ("name", .str "\x7b\x7b kube_namespace \x7d\x7d"),
                ("api_version", .str "v1"),
                ("kind", .str "Namespace"),
                ("state", .str "present") ]
            tags := ["namespace"] },
          { name := "Deploy application", module := "kubernetes.core.k8s"
            args := .obj
              [ ("state", .str "present"),
                ("definition", .obj
                  [ ("apiVersion", .str "apps/v1"),
                    ("kind", .str "Deployment"),
                    ("metadata", .obj
                      [ ("name", .str "\x7b\x7b app_name \x7d\x7d"),
                        ("namespace", .str "\x7b\x7b kube_namespace \x7d\x7d"),
                        ("labels", .obj
                          [ ("app", .str "\x7b\x7b app_name \x7d\x7d"),
                            ("environment", .str "\x7b\x7b environment \x7d\x7d") ]) ]),
                    ("spec", .obj
                      [ ("replicas", .str "\x7b\x7b replicas \x7d\x7d"),
                        ("selector", .obj
                          [ ("matchLabels", .obj
                              [("app", .str "\x7b\x7b app_name \x7d\x7d")]) ]),
                        ("template", .obj
                          [ ("metadata", .obj
                              [ ("labels", .obj
                                  [("app", .str "\x7b\x7b app_name \x7d\x7d")]) ]),
                            ("spec", .obj
                              [ ("containers", .arr
                                  [ .obj
                                      [ ("name", .str "\x7b\x7b app_name \x7d\x7d"),
                                        ("image", .str "\x7b\x7b image \x7d\x7d"),
                                        ("ports", .arr [.obj [("containerPort", .num 8080)]]),
                                        ("resources", .obj
                                          [ ("requests", .obj
                                              [ ("memory", .str "256Mi"),
                                                ("cpu", .str "250m") ]),
                                            ("limits", .obj
                                              [ ("memory", .str "512Mi"),
                                                ("cpu", .str "500m") ]) ]) ] ]) ]) ]) ]) ]) ]
            tags := ["deploy", "kubernetes"] },
          { name := "Create service", module := "kubernetes.core.k8s"
            args := .obj
              [ ("state", .str "present"),
                ("definition", .obj
                  [ ("apiVersion", .str "v1"),
                    ("kind", .str "Service"),
                    ("metadata", .obj
                      [ ("name", .str "\x7b\x7b app_name \x7d\x7d-service"),
                        ("namespace", .str "\x7b\x7b kube_namespace \x7d\x7d") ]),
                    ("spec", .obj
                      [ ("selector", .obj [("app", .str "\x7b\x7b app_name \x7d\x7d")]),
                        ("ports", .arr
                          [ .obj
                              [ ("protocol", .str "TCP"),
                                ("port", .num 80),
                                ("targetPort", .num 8080) ] ]),
                        ("type", .str "LoadBalancer") ]) ]) ]
            tags := ["service", "kubernetes"] } ] } ]

/-- The parsed YAML value of `PlaybookGenerator._docker_template`. -/
def docker_template : List Play :=
  [ { name := "Docker Environment Setup"
      hosts := "\x7b\x7b target_hosts | default(\x27all\x27) \x7d\x7d"
      become := some true
      vars := some
        [ ("docker_users", .arr []),
          ("docker_compose_version", .str "2.20.0"),
          ("docker_repo_url", .str
            "deb [arch=amd64] https://download.docker.com/linux/\x7b\x7b ansible_distribution | lower \x7d\x7d \x7b\x7b ansible_distribution_release \x7d\x7d stable") ]
      tasks :=
        [ { name := "Install required packages", module := "package"
            args := .obj
              [ ("name", .arr
                  [ .str "apt-transport-https", .str "ca-certificates", .str "curl",
                    .str "gnupg", .str "lsb-release" ]),
                ("state", .str "present") ]
            tags := ["setup", "docker"] },
          { name := "Add Docker GPG key", module := "apt_key"
            args := .obj
              [ ("url", .str
                  "https://download.docker.com/linux/\x7b\x7b ansible_distribution | lower \x7d\x7d/gpg"),
                ("state", .str "present") ]
            tags := ["setup", "docker"] },
          { name := "Add Docker repository", module := "apt_repository"
            args := .obj
              [ ("repo", .str "\x7b\x7b docker_repo_url \x7d\x7d"),
                ("state", .str "present") ]
            tags := ["setup", "docker"] },
          { name := "Install Docker", module := "package"
            args := .obj
              [ ("name", .arr
                  [.str "docker-ce", .str "docker-ce-cli", .str "containerd.io"]),
                ("state", .str "present") ]
            tags := ["setup", "docker"] },
          { name := "Start and enable Docker", module := "systemd"
            args := .obj
              [ ("name", .str "docker"), ("state", .str "started"),
                ("enabled", .bool true) ]
            tags := ["setup", "docker"] },
          { name := "Install Docker Compose Plugin", module := "package"
            args := .obj
              [("name", .str "docker-compose-plugin"), ("state", .str "present")]
            tags := ["setup", "docker-compose"] },
          { name := "Add users to docker group", module := "user"
            args := .obj
              [ ("name", .str "\x7b\x7b item \x7d\x7d"),
                ("groups", .str "docker"), ("append", .bool true) ]
            loop := some (.str "\x7b\x7b docker_users \x7d\x7d")
            when_ := some "docker_users | length > 0"
            tags := ["setup", "docker"] } ] } ]

/-- The parsed YAML value of `PlaybookGenerator._system_template`. -/
def system_template : List Play :=
  [ { name := "System Configuration Playbook"
      hosts := "\x7b\x7b target_hosts | default(\x27all\x27) \x7d\x7d"
      become := some true
      vars := some
        [ ("system_timezone", .str "UTC"),
          ("system_packages", .arr []) ]
      tasks :=
        [ { name := "Update package cache", module := "package"
            args := .obj [("update_cache", .bool true)]
            tags := ["update", "system"] },
          { name := "Upgrade all packages", module := "package"
            args := .obj [("name", .str "*"), ("state", .str "present")]
            tags := ["update", "system"] },
          { name := "Set timezone", module := "timezone"
            args := .obj [("name", .str "\x7b\x7b system_timezone \x7d\x7d")]
            tags := ["config", "system"] },
          { name := "Install essential packages", module := "package"
            args := .obj
              [ ("name", .arr
                  [ .str "vim", .str "git", .str "curl", .str "wget",
                    .str "htop", .str "net-tools" ]),
                ("state", .str "present") ]
            tags := ["setup", "system"] },
          { name := "Configure sysctl parameters", module := "sysctl"
            args := .obj
              [ ("name", .str "\x7b\x7b item.name \x7d\x7d"),
                ("value", .str "\x7b\x7b item.value \x7d\x7d"),
                ("state", .str "present"), ("reload", .bool true) ]
            loop := some (.arr
              [ .obj [("name", .str "net.ipv4.ip_forward"), ("value", .str "1")],
                .obj [("name", .str "net.ipv6.conf.all.forwarding"), ("value", .str "1")] ])
            tags := ["config", "system"] } ] } ]

/-- The parsed YAML value of `PlaybookGenerator._database_template`. -/
def database_template : List Play :=
  [ { name := "Database Setup Playbook"
      hosts := "\x7b\x7b target_hosts | default(\x27all\x27) \x7d\x7d"
      become := some true
      vars := some
        [ ("db_type", .str "\x7b\x7b database_type | default(\x27postgresql\x27) \x7d\x7d"),
          ("db_name", .str "\x7b\x7b database_name | default(\x27myapp\x27) \x7d\x7d"),
          ("db_user", .str "\x7b\x7b database_user | default(\x27appuser\x27) \x7d\x7d"),
          ("db_password", .str "\x7b\x7b database_password \x7d\x7d") ]
      tasks :=
        [ { name := "Install PostgreSQL", module := "package"
            args := .obj
              [ ("name", .arr
                  [.str "postgresql", .str "postgresql-contrib", .str "python3-psycopg2"]),
                ("state", .str "present") ]
            when_ := some "db_type == \x27postgresql\x27"
            tags := ["setup", "database"] },
          { name := "Start PostgreSQL service", module := "systemd"
            args := .obj
              [ ("name", .str "postgresql"), ("state", .str "started"),
                ("enabled", .bool true) ]
            when_ := some "db_type == \x27postgresql\x27"
            tags := ["setup", "database"] },
          { name := "Create database", module := "postgresql_db"
            args := .obj
              [("name", .str "\x7b\x7b db_name \x7d\x7d"), ("state", .str "present")]
            become_user := some "postgres"
            when_ := some "db_type == \x27postgresql\x27"
            tags := ["setup", "database"] },
          { name := "Create database user", module := "postgresql_user"
            args := .obj
              [ ("name", .str "\x7b\x7b db_user \x7d\x7d"),
                ("password", .str "\x7b\x7b db_password \x7d\x7d"),
                ("db", .str "\x7b\x7b db_name \x7d\x7d"),
                ("priv", .str "ALL"), ("state", .str "present") ]
            become_user := some "postgres"
            when_ := some "db_type == \x27postgresql\x27"
            tags := ["setup", "database"] } ] } ]

/-- The parsed YAML value of `PlaybookGenerator._monitoring_template`. -/
def monitoring_template : List Play :=
  [ { name := "Monitoring Stack Setup"
      hosts := "\x7b\x7b target_hosts | default(\x27all\x27) \x7d\x7d"
      become := some true
      vars := some
        [ ("prometheus_version", .str "2.45.0"),
          ("grafana_version", .str "10.0.0"),
          ("prometheus_base", .str
            "https://github.com/prometheus/prometheus/releases/download"),
          ("prometheus_file", .str
            "prometheus-\x7b\x7b prometheus_version \x7d\x7d.linux-amd64.tar.gz"),
          ("prometheus_url", .str
            "\x7b\x7b prometheus_base \x7d\x7d/v\x7b\x7b prometheus_version \x7d\x7d/\x7b\x7b prometheus_file \x7d\x7d") ]
      tasks :=
        [ { name := "Create monitoring user", module := "user"
            args := .obj
              [ ("name", .str "prometheus"), ("system", .bool true),
                ("shell", .str "/bin/false") ]
            tags := ["setup", "monitoring"] },
          { name := "Download and install Prometheus", module := "unarchive"
            args := .obj
              [ ("src", .str "\x7b\x7b prometheus_url \x7d\x7d"),
                ("dest", .str "/opt"), ("remote_src", .bool true),
                ("owner", .str "prometheus"), ("group", .str "prometheus") ]
            tags := ["setup", "prometheus"] },
          { name := "Create Prometheus configuration", module := "template"
            args := .obj
              [ ("src", .str "prometheus.yml.j2"),
                ("dest", .str "/etc/prometheus/prometheus.yml"),
                ("owner", .str "prometheus"), ("group", .str "prometheus") ]
            tags := ["config", "prometheus"] },
          { name := "Create systemd service for Prometheus", module := "systemd"
            args := .obj
              [ ("name", .str "prometheus"), ("state", .str "started"),
                ("enabled", .bool true), ("daemon_reload", .bool true) ]
            tags := ["setup", "prometheus"] },
          { name := "Install Grafana", module := "package"
            args := .obj [("name", .str "grafana"), ("state", .str "present")]
            tags := ["setup", "grafana"] },
          { name := "Start Grafana service", module := "systemd"
            args := .obj
              [ ("name", .str "grafana-server"), ("state", .str "started"),
                ("enabled", .bool true) ]
            tags := ["setup", "grafana"] } ] } ]

/-- The parsed YAML value of `PlaybookGenerator._security_template`.
Note: the play has no `vars` key, and exactly one handler named
"restart sshd". -/
def security_template : List Play :=
  [ { name := "Security Hardening Playbook"
      hosts := "\x7b\x7b target_hosts | default(\x27all\x27) \x7d\x7d"
      become := some true
      tasks :=
        [ { name := "Update all packages", module := "package"
            args := .obj [("name", .str "*"), ("state", .str "present")]
            tags := ["update", "security"] },
          { name := "Configure SSH hardening", module := "lineinfile"
            args := .obj
              [ ("path", .str "/etc/ssh/sshd_config"),
                ("regexp", .str "\x7b\x7b item.regexp \x7d\x7d"),
                ("line", .str "\x7b\x7b item.line \x7d\x7d"),
                ("state", .str "present") ]
            loop := some (.arr
              [ .obj [("regexp", .str "^PermitRootLogin"),
                      ("line", .str "PermitRootLogin no")],
                .obj [("regexp", .str "^PasswordAuthentication"),
                      ("line", .str "PasswordAuthentication no")],
                .obj [("regexp", .str "^PermitEmptyPasswords"),
                      ("line", .str "PermitEmptyPasswords no")],
                .obj [("regexp", .str "^X11Forwarding"),
                      ("line", .str "X11Forwarding no")],
                .obj [("regexp", .str "^MaxAuthTries"),
                      ("line", .str "MaxAuthTries 3")] ])
            notify := some "restart sshd"
            tags := ["config", "ssh", "security"] },
          { name := "Install and configure fail2ban", module := "package"
            args := .obj [("name", .str "fail2ban"), ("state", .str "present")]
            tags := ["setup", "security"] },
          { name := "Configure firewall with UFW", module := "ufw"
            args := .obj
              [ ("rule", .str "\x7b\x7b item.rule \x7d\x7d"),
                ("port", .str "\x7b\x7b item.port \x7d\x7d"),
                ("proto", .str "\x7b\x7b item.proto | default(\x27tcp\x27) \x7d\x7d") ]
            loop := some (.arr
              [ .obj [("rule", .str "allow"), ("port", .str "22")],
                .obj [("rule", .str "allow"), ("port", .str "80")],
                .obj [("rule", .str "allow"), ("port", .str "443")] ])
            tags := ["firewall", "security"] },
          { name := "Enable UFW", module := "ufw"
            args := .obj
              [ ("state", .str "enabled"), ("policy", .str "deny"),
                ("direction", .str "incoming") ]
            tags := ["firewall", "security"] },
          { name := "Install and configure auditd", module := "package"
            args := .obj [("name", .str "auditd"), ("state", .str "present")]
            tags := ["setup", "audit", "security"] },
          { name := "Start auditd service", module := "systemd"
            args := .obj
              [ ("name", .str "auditd"), ("state", .str "started"),
                ("enabled", .bool true) ]
            tags := ["setup", "audit", "security"] } ]
      handlers := some
        [ { name := "restart sshd", module := "systemd"
            args := .obj [("name", .str "sshd"), ("state", .str "restarted")] } ] } ]

/-- The `self.templates` dict of `PlaybookGenerator.__init__`: six of
the eight PlaybookType values have a template. -/
def templates : PlaybookType → Option (List Play)
  | .KUBERNETES => some kubernetes_template
  | .DOCKER => some docker_template
  | .SYSTEM => some system_template
  | .DATABASE => some database_template
  | .MONITORING => some monitoring_template
  | .SECURITY => some security_template
  | _ => none

/-- The two tasks `_add_ha_tasks` appends. -/
def ha_tasks : List Task :=
  [ { name := "Configure keepalived for HA", module := "package"
      args := .obj [("name", .str "keepalived"), ("state", .str "present")]
      tags := ["ha", "keepalived"] },
    { name := "Setup load balancer health checks", module := "uri"
      args := .obj [("url", .str "http://localhost/health"), ("status_code", .num 200)]
      tags := ["ha", "healthcheck"] } ]

/-- PlaybookGenerator._add_ha_tasks (mutates the play it is given). -/
def add_ha_tasks (p : Play) : Play :=
  { p with tasks := p.tasks ++ ha_tasks }

/-- The three tasks `_add_security_tasks` appends. -/
def security_tasks : List Task :=
  [ { name := "Configure firewall rules", module := "firewalld"
      args := .obj
        [ ("service", .str "https"), ("permanent", .bool true),
          ("state", .str "enabled") ]
      tags := ["security", "firewall"] },
    { name := "Setup fail2ban", module := "package"
      args := .obj [("name", .str "fail2ban"), ("state", .str "present")]
      tags := ["security", "fail2ban"] },
    { name := "Configure SSH hardening", module := "lineinfile"
      args := .obj
        [ ("path", .str "/etc/ssh/sshd_config"),
          ("regexp", .str "^PermitRootLogin"),
          ("line", .str "PermitRootLogin no") ]
      notify := some "restart sshd"
      tags := ["security", "ssh"] } ]

/-- The handler dict `_add_security_tasks` may append. -/
def restart_sshd_handler : Task :=
  { name := "restart sshd", module := "service"
    args := .obj [("name", .str "sshd"), ("state", .str "restarted")] }

/-- PlaybookGenerator._add_security_tasks: extends the task list, makes
sure a handlers list exists, and appends the SSH-restart handler only if
no handler with that exact name is present. -/
def add_security_tasks (p : Play) : Play :=
  let hs := p.handlers.getD []
  { p with
    tasks := p.tasks ++ security_tasks
    handlers := some
      (if hs.any (fun h => h.name == "restart sshd") then hs
       else hs ++ [restart_sshd_handler]) }

/-- The two tasks `_add_monitoring_tasks` appends (the URL is the
concatenation of the two adjacent string literals in the source). -/
def monitoring_tasks : List Task :=
  [ { name := "Install node exporter", module := "unarchive"
      args := .obj
        [ ("src", .str
            "https://github.com/prometheus/node_exporter/releases/download/v1.5.0/node_exporter-1.5.0.linux-amd64.tar.gz"),
          ("dest", .str "/opt"), ("remote_src", .bool true) ]
      tags := ["monitoring", "prometheus"] },
    { name := "Create systemd service for node exporter", module := "systemd"
      args := .obj
        [ ("name", .str "node_exporter"), ("state", .str "started"),
          ("enabled", .bool true) ]
      tags := ["monitoring", "prometheus"] } ]

/-- PlaybookGenerator._add_monitoring_tasks. -/
def add_monitoring_tasks (p : Play) : Play :=
  { p with tasks := p.tasks ++ monitoring_tasks }

/-- The two tasks `_add_backup_tasks` appends. -/
def backup_tasks : List Task :=
  [ { name := "Create backup directory", module := "file"
      args := .obj
        [ ("path", .str "/backup"), ("state", .str "directory"),
          ("mode", .str "0755") ]
      tags := ["backup"] },
    { name := "Setup automated backup cron job", module := "cron"
      args := .obj
        [ ("name", .str "Daily backup"), ("hour", .str "2"),
          ("minute", .str "0"), ("job", .str "/usr/local/bin/backup.sh") ]
      tags := ["backup", "cron"] } ]

/-- PlaybookGenerator._add_backup_tasks. -/
def add_backup_tasks (p : Play) : Play :=
  { p with tasks := p.tasks ++ backup_tasks }

/-- PlaybookGenerator._add_installation_tasks: a documented extension
seam, `pass` in the source. -/
def add_installation_tasks (p : Play) (_ctx : PlaybookContext) : Play := p

/-- PlaybookGenerator._add_configuration_tasks: `pass` in the source. -/
def add_configuration_tasks (p : Play) (_ctx : PlaybookContext) : Play := p

/-- PlaybookGenerator._add_deployment_tasks: `pass` in the source. -/
def add_deployment_tasks (p : Play) (_ctx : PlaybookContext) : Play := p

/-- The dispatch of the `for req in context.requirements` loop of
`_enhance_with_requirements`: note that `scalability` and `performance`
have no branch and fall through unchanged. -/
def apply_requirement (p : Play) (req : String) : Play :=
  if req == "high_availability" then add_ha_tasks p
  else if req == "security" then add_security_tasks p
  else if req == "monitoring" then add_monitoring_tasks p
  else if req == "backup" then add_backup_tasks p
  else p

/-- The structural effect of `_enhance_with_requirements` on a parsed
document: every mutation targets `playbook_data[0]`.  (On an empty
parsed list the Python indexing would raise for a matching requirement;
no claim and no pipeline input reaches that state, and the embedding
leaves an empty document unchanged.) -/
def enhance_core (doc : List Play) (reqs : List String) : List Play :=
  match doc with
  | [] => []
  | p :: rest => reqs.foldl apply_requirement p :: rest

/-- The structural effect of `_add_custom_tasks` on a parsed document:
three substring checks on the prompt, each invoking a `pass` seam on
`playbook_data[0]`. -/
def custom_core (doc : List Play) (ctx : PlaybookContext) : List Play :=
  match doc with
  | [] => []
  | p :: rest =>
    let p := if substrOf "install" (pyLower ctx.prompt) then add_installation_tasks p ctx else p
    let p := if substrOf "configure" (pyLower ctx.prompt) then add_configuration_tasks p ctx else p
    let p := if substrOf "deploy" (pyLower ctx.prompt) then add_deployment_tasks p ctx else p
    p :: rest

/-- PlaybookGenerator._enhance_with_requirements at the string level.
`safe_load` is the external YAML parser (PyYAML), passed explicitly; a
`.error` result models a raised `yaml.YAMLError`, which the stage
catches, logging and returning its input unchanged.  `dump` is
`yaml.dump`. -/
def enhance_with_requirements (safe_load : String → Except String (List Play))
    (dump : List Play → String) (playbook : String) (ctx : PlaybookContext) : String :=
  match safe_load playbook with
  | .error _ => playbook
  | .ok doc => dump (enhance_core doc ctx.requirements)

/-- PlaybookGenerator._add_custom_tasks at the string level; same
fail-soft shape as `enhance_with_requirements`. -/
def add_custom_tasks (safe_load : String → Except String (List Play))
    (dump : List Play → String) (playbook : String) (ctx : PlaybookContext) : String :=
  match safe_load playbook with
  | .error _ => playbook
  | .ok doc => dump (custom_core doc ctx)

/-- PlaybookGenerator._generate_generic: the generic play dict built
from the context. -/
def generate_generic (ctx : PlaybookContext) : List Play :=
  [ { name := "Playbook for: " ++ ctx.prompt.take 50
      hosts := ctx.target_hosts
      become := some true
      vars := some (("environment", .str ctx.environment) :: ctx.variables_)
      tasks :=
        [ { name := "Gather system facts", module := "setup", args := .obj []
            tags := ["always"] },
          { name := "Ensure system packages are updated", module := "package"
            args := .obj [("name", .str "*"), ("state", .str "present")]
            tags := ["update"] } ] } ]

/-- PlaybookGenerator.generate, at the structural document level: pick
the template for the detected type (or the generic play), then run the
two augmentation stages.  In the source each stage round-trips the
document through `yaml.dump`/`yaml.safe_load`; on these well-formed
documents that round trip is the identity on the parsed structure, so
the structural pipeline composes the stage cores directly. -/
def generate (ctx : PlaybookContext) : List Play :=
  let base :=
    match ctx.playbook_type with
    | some t =>
      match templates t with
      | some doc => doc
      | none => generate_generic ctx
    | none => generate_generic ctx
  let doc := enhance_core base ctx.requirements
  custom_core doc ctx

/-- AIPlaybookService._build_full_prompt. -/
def build_full_prompt (prompt : String) (target_hosts environment : Option String)
    (tags : Option (List String)) : String :=
  let context_parts : List String :=
    (if pyTruthyStr target_hosts && (target_hosts.getD "" != "all") then
      ["Target hosts: " ++ target_hosts.getD ""] else [])
    ++ (if pyTruthyStr environment then
      ["Environment: " ++ environment.getD ""] else [])
    ++ (if pyTruthyList tags then
      ["Tags: " ++ String.intercalate ", " (tags.getD [])] else [])
  if !context_parts.isEmpty then
    prompt ++ "\n\nAdditional context:\n" ++ String.intercalate "\n" context_parts
  else
    prompt

/-- AIPlaybookService._generate_with_template: analyze the original
prompt, apply the request-level overrides (only when truthy), generate,
and label with the detected type's value or "general". -/
def generate_with_template (prompt : String) (target_hosts environment : Option String)
    (tags : Option (List String)) : List Play × String :=
  let ctx := analyze_prompt prompt
  let ctx := if pyTruthyStr target_hosts then
    { ctx with target_hosts := target_hosts.getD "" } else ctx
  let ctx := if pyTruthyStr environment then
    { ctx with environment := environment.getD "" } else ctx
  let ctx := if pyTruthyList tags then { ctx with tags := tags.getD [] } else ctx
  let playbook := generate ctx
  let playbook_type :=
    match ctx.playbook_type with
    | some t => t.value
    | none => "general"
  (playbook, playbook_type)

/-- Python whitespace for `str.strip()` (the ASCII whitespace
characters; the claims' inputs contain no exotic Unicode spaces). -/
def pySpace (c : Char) : Bool :=
  c == ' ' || c == '\t' || c == '\n' || c == '\r' || c == '\x0b' || c == '\x0c'

/-- Python `text.strip()` on a character list. -/
def pyStrip (l : List Char) : List Char :=
  ((l.dropWhile pySpace).reverse.dropWhile pySpace).reverse

/-- Python `text.startswith(p)` on character lists. -/
def startsWithL (p l : List Char) : Bool := l.take p.length == p

/-- Python `text.endswith(p)` on character lists. -/
def endsWithL (p l : List Char) : Bool := l.reverse.take p.length == p.reverse

/-- Python `text[:-n]` (for text of length at least n). -/
def dropRightL (n : Nat) (l : List Char) : List Char := (l.reverse.drop n).reverse

/-- AIPlaybookService._clean_codeblock, on the character list of the
text: strip, drop a leading code-fence marker (7 characters for the
yaml-tagged marker, else 3 for a bare marker), drop a trailing marker,
strip again. -/
def clean_codeblock (text : List Char) : List Char :=
  let t := pyStrip text
  let t :=
    if startsWithL ("```yaml".data) t then t.drop 7
    else if startsWithL ("```".data) t then t.drop 3
    else t
  let t := if endsWithL ("```".data) t then dropRightL 3 t else t
  pyStrip t

/-- AIPlaybookService._detect_playbook_type. -/
def detect_playbook_type (playbook : String) : String :=
  let lower := pyLower playbook
  if ["kubernetes", "k8s"].any (fun x => substrOf x lower) then "kubernetes"
  else if substrOf "docker" lower then "docker"
  else if ["nginx", "apache"].any (fun x => substrOf x lower) then "web"
  else if ["postgres", "mysql"].any (fun x => substrOf x lower) then "database"
  else if ["prometheus", "grafana"].any (fun x => substrOf x lower) then "monitoring"
  else if ["firewall", "ssh"].any (fun x => substrOf x lower) then "security"
  else "general"

/-- Modelled from the spec: the post-generation re-detection described
as a first-match priority list of substring checks over a keyword table
(spec section 4.6 step 3).  The spec's abstract labels correspond to the
source's strings as container-runtime = "docker", network = "web" and
the generic label = "general". -/
def spec_first_match (rules : List (List String × String)) (dflt : String)
    (text : String) : String :=
  match rules with
  | [] => dflt
  | (kws, label) :: rest =>
    if kws.any (fun k => substrOf k (pyLower text)) then label
    else spec_first_match rest dflt text

/-- Modelled from the spec: the priority table of the re-detection. -/
def spec_priority_rules : List (List String × String) :=
  [ (["kubernetes", "k8s"], "kubernetes"),
    (["docker"], "docker"),
    (["nginx", "apache"], "web"),
    (["postgres", "mysql"], "database"),
    (["prometheus", "grafana"], "monitoring"),
    (["firewall", "ssh"], "security") ]

/-- Number of handlers named "restart sshd" in a play (a play without a
`handlers` key has none). -/
def count_restart_sshd (p : Play) : Nat :=
  (p.handlers.getD []).countP (fun h => h.name == "restart sshd")

/-- Number of "restart sshd" handlers in the first play of a document. -/
def doc_restart_sshd_count (doc : List Play) : Nat :=
  match doc with
  | [] => 0
  | p :: _ => count_restart_sshd p

/-- The value bound to `key` in the `vars` of the first play, if any. -/
def first_play_var (doc : List Play) (key : String) : Option Json :=
  match doc with
  | [] => none
  | p :: _ =>
    match p.vars with
    | none => none
    | some vs => (vs.find? (fun v => v.1 == key)).map (fun v => v.2)

/-- Whether some play of the document has a task with the given name. -/
def doc_has_task (doc : List Play) (n : String) : Bool :=
  doc.any (fun p => p.tasks.any (fun t => t.name == n))

/-- The fallback generation run of end-to-end scenario B: prompt
"Harden system security", AI disabled, environment override "staging". -/
def scenario_b : List Play × String :=
  generate_with_template "Harden system security" (some "all") (some "staging") (some [])

/-- The fallback generation run of end-to-end scenario A: prompt
"Deploy a kubernetes application with monitoring", AI disabled. -/
def scenario_a : List Play × String :=
  generate_with_template "Deploy a kubernetes application with monitoring"
    (some "all") (some "production") (some [])

theorem str_append_assoc (a b c : String) : (a ++ b) ++ c = a ++ (b ++ c) := by
  rcases a with ⟨la⟩
  rcases b with ⟨lb⟩
  rcases c with ⟨lc⟩
  show String.mk ((la ++ lb) ++ lc) = String.mk (la ++ (lb ++ lc))
  rw [List.append_assoc]

theorem startsWithL_yaml_append (l : List Char) :
    startsWithL ("```yaml".data) ("```yaml".data ++ l) = true := rfl

theorem startsWithL_fence_append (l : List Char) :
    startsWithL ("```".data) ("```".data ++ l) = true := rfl

theorem drop_yaml_append (l : List Char) : ("```yaml".data ++ l).drop 7 = l := rfl

theorem drop_fence_append (l : List Char) : ("```".data ++ l).drop 3 = l := rfl

theorem endsWithL_append_fence (l : List Char) :
    endsWithL ("```".data) (l ++ "```".data) = true := by
  unfold endsWithL
  rw [List.reverse_append]
  exact rfl

theorem dropRightL_append_fence (l : List Char) :
    dropRightL 3 (l ++ "```".data) = l := by
  unfold dropRightL
  rw [List.reverse_append]
  rw [show (List.reverse ("```".data) ++ l.reverse).drop 3 = l.reverse from rfl]
  exact List.reverse_reverse l

theorem count_restart_sshd_add (p : Play) :
    count_restart_sshd (add_security_tasks p)
      = if count_restart_sshd p = 0 then 1 else count_restart_sshd p := by
  unfold count_restart_sshd add_security_tasks
  by_cases hany :
      (p.handlers.getD []).any (fun h => h.name == "restart sshd") = true
  · simp only [hany, if_true, Option.getD_some]
    have hpos : 0 < (p.handlers.getD []).countP (fun h => h.name == "restart sshd") := by
      rcases List.any_eq_true.mp hany with ⟨a, ha, hpa⟩
      exact List.countP_pos_iff.mpr ⟨a, ha, hpa⟩
    rw [if_neg (Nat.pos_iff_ne_zero.mp hpos)]
  · simp only [Bool.not_eq_true] at hany
    simp only [hany, Bool.false_eq_true, if_false, Option.getD_some]
    rw [List.countP_append]
    have h0 : (p.handlers.getD []).countP (fun h => h.name == "restart sshd") = 0 := by
      rw [List.countP_eq_zero]
      intro a ha
      have := List.any_eq_false.mp hany a ha
      simpa using this
    rw [h0, if_pos rfl]
    rfl

/-- C1 (counterexample): in end-to-end scenario B ("Harden system
security", AI disabled, environment override "staging") the claim as
stated is false: the returned document's first Play has no `vars` at
all, so its environment variable is not "staging" (the security
template carries no variables and the override only updates the
generation context). -/
theorem claim1_counterexample :
    ¬ (scenario_b.2 = "security"
       ∧ first_play_var scenario_b.1 "environment" = some (Json.str "staging")
       ∧ doc_restart_sshd_count scenario_b.1 = 1) := by
  intro h
  have hx := h.2.1
  rw [show first_play_var scenario_b.1 "environment" = none from rfl] at hx
  exact Option.noConfusion hx

/-- C1 (amended): scenario B returns category "security" and the
security template unchanged; its first Play carries no environment
variable (the "staging" override lives only in the context), and the
document contains exactly one Handler named "restart sshd". -/
theorem claim1_amended :
    scenario_b.2 = "security"
    ∧ first_play_var scenario_b.1 "environment" = none
    ∧ doc_restart_sshd_count scenario_b.1 = 1
    ∧ scenario_b.1 = security_template :=
  ⟨rfl, rfl, rfl, rfl⟩

/-- C2 (code divergence at the claim's input): scenario A ("Deploy a
kubernetes application with monitoring", AI disabled) returns category
"kubernetes" but appends no monitoring tasks, because the requirement
regex `\b(monitor|metric|log|observ)\b` cannot match the word
"monitoring" (its trailing word boundary fails inside the word), so the
extracted requirement list is empty and the returned document is the
kubernetes template unchanged. -/
theorem claim2_divergence :
    scenario_a.2 = "kubernetes"
    ∧ extract_requirements "Deploy a kubernetes application with monitoring" = []
    ∧ scenario_a.1 = kubernetes_template
    ∧ doc_has_task scenario_a.1 "Install node exporter" = false
    ∧ doc_has_task scenario_a.1 "Create systemd service for node exporter" = false :=
  ⟨rfl, rfl, rfl, rfl, rfl⟩

/-- C3: post-generation category re-detection equals the spec's
first-match priority list of substring checks (kubernetes/k8s, then
docker, then nginx/apache, then postgres/mysql, then
prometheus/grafana, then firewall/ssh, else the generic label).  The
spec's abstract labels map to the source's strings as container-runtime
= "docker", network = "web", generic = "general". -/
theorem claim3_priority_redetect (s : String) :
    detect_playbook_type s = spec_first_match spec_priority_rules "general" s := by
  simp only [detect_playbook_type, spec_first_match, spec_priority_rules, List.any_cons,
    List.any_nil, Bool.or_false]

/-- C4 (counterexample): with every field at its default (host selector
"all", environment "production", empty tags) the enriched prompt is NOT
the original prompt — the code appends the context block with an
"Environment: production" line, because the environment check tests
only truthiness, not difference from the default. -/
theorem claim4_counterexample :
    build_full_prompt "Install nginx" (some "all") (some "production") (some [])
      ≠ "Install nginx" := by
  intro h
  exact absurd h (by decide)

/-- C4 (amended): the context block omits the host selector at its
default "all" and omits empty tags, but lists the environment whenever
it is non-empty, including the default: with all fields at their
defaults the result is the original prompt followed by a context block
containing exactly "Environment: production". -/
theorem claim4_amended (prompt : String) :
    build_full_prompt prompt (some "all") (some "production") (some [])
      = prompt ++ "\n\nAdditional context:\nEnvironment: production" := by
  have hp : ¬ ("production" = "") := by decide
  simp only [build_full_prompt, pyTruthyStr, pyTruthyList]
  norm_num
  rw [if_neg hp, if_neg hp, str_append_assoc]
  congr 1

/-- C5 (code divergence): for each provider there is a JSON body with
the expected key but a non-object element on which `extractText` raises
an uncaught `TypeError` from the membership test, instead of failing
with the InvalidResponseShape `ValueError` — so the extraction is not
total over all response shapes (lists whose elements are not objects
break it). -/
theorem claim5_unhandled_type_error :
    gemini_extract (Json.obj [("candidates", Json.arr [Json.num 42])])
      = Except.error PyErr.typeError
    ∧ openai_extract (Json.obj [("choices", Json.arr [Json.num 42])])
      = Except.error PyErr.typeError
    ∧ anthropic_extract (Json.obj [("content", Json.arr [Json.num 7])])
      = Except.error PyErr.typeError :=
  ⟨rfl, rfl, rfl⟩

/-- C6: for a text that (after stripping) is a single fenced code block
-- either the yaml-tagged opening marker, or a bare opening marker when
the stripped text does not begin with the tagged marker -- the cleanup
returns exactly the inner content with leading and trailing whitespace
stripped. -/
theorem claim6_clean_codeblock (t inner : List Char)
    (h : pyStrip t = "```yaml".data ++ (inner ++ "```".data)
       ∨ (pyStrip t = "```".data ++ (inner ++ "```".data)
          ∧ startsWithL ("```yaml".data) (pyStrip t) = false)) :
    clean_codeblock t = pyStrip inner := by
  simp only [clean_codeblock]
  rcases h with h | ⟨h, hny⟩
  · rw [h, startsWithL_yaml_append]
    simp only [if_true]
    rw [drop_yaml_append, endsWithL_append_fence]
    simp only [if_true]
    rw [dropRightL_append_fence]
  · rw [h] at hny ⊢
    rw [hny]
    simp only [Bool.false_eq_true, if_false]
    rw [startsWithL_fence_append]
    simp only [if_true]
    rw [drop_fence_append, endsWithL_append_fence]
    simp only [if_true]
    rw [dropRightL_append_fence]

/-- C6 witness: a concrete fenced, yaml-tagged AI response is cleaned
to its inner content. -/
theorem claim6_witness :
    clean_codeblock ("  ```yaml\nkey: value\n```  ".data)
      = pyStrip ("\nkey: value\n".data) :=
  claim6_clean_codeblock ("  ```yaml\nkey: value\n```  ".data)
    ("\nkey: value\n".data) (Or.inl (by decide))

/-- C7: running the security augmentation twice on a play that does not
already hold duplicate "restart sshd" handlers leaves exactly one
handler of that name — the dedup-by-name guard appends it only when
absent. -/
theorem claim7_handler_dedup (p : Play) (h : count_restart_sshd p ≤ 1) :
    count_restart_sshd (add_security_tasks (add_security_tasks p)) = 1 := by
  rw [count_restart_sshd_add, count_restart_sshd_add]
  split_ifs <;> omega

/-- C7 witness: augmenting a fresh handler-less play twice yields
exactly one "restart sshd" handler. -/
theorem claim7_witness :
    count_restart_sshd { name := "x", hosts := "all", tasks := [] } ≤ 1
    ∧ count_restart_sshd
        (add_security_tasks (add_security_tasks { name := "x", hosts := "all", tasks := [] }))
        = 1 :=
  ⟨Nat.zero_le 1, claim7_handler_dedup { name := "x", hosts := "all", tasks := [] } (Nat.zero_le 1)⟩

/-- C8: when the YAML parser fails on the input document string, both
augmentation stages return the input unchanged (the stage catches the
parse error and fails soft), so the caller always receives a document. -/
theorem claim8_fail_soft (safe_load : String → Except String (List Play))
    (dump : List Play → String) (s : String) (ctx : PlaybookContext) (e : String)
    (h : safe_load s = Except.error e) :
    enhance_with_requirements safe_load dump s ctx = s
    ∧ add_custom_tasks safe_load dump s ctx = s := by
  constructor <;> simp [enhance_with_requirements, add_custom_tasks, h]

/-- C8 witness: a concrete unparsable document string passes through
both stages unchanged. -/
theorem claim8_witness :
    enhance_with_requirements (fun _ => Except.error "mapping values are not allowed here")
      (fun _ => "") "key: [unclosed" { prompt := "x" } = "key: [unclosed"
    ∧ add_custom_tasks (fun _ => Except.error "mapping values are not allowed here")
      (fun _ => "") "key: [unclosed" { prompt := "x" } = "key: [unclosed" :=
  claim8_fail_soft (fun _ => Except.error "mapping values are not allowed here")
    (fun _ => "") "key: [unclosed" { prompt := "x" }
    "mapping values are not allowed here" rfl

/-- C9: for each supported provider name, the factory with an explicit
non-empty credential returns a client whose name is the requested one;
with no credential argument and an environment with none of that
provider's variables set, it fails with the missing-credential
`ValueError`. -/
theorem claim9_factory (getenv getenv2 : String → Option String)
    (model : Option String) (name k : String)
    (hname : name = "gemini" ∨ name = "openai" ∨ name = "anthropic")
    (hk : k ≠ "")
    (h1 : getenv2 "GEMINI_API_KEY" = none) (h2 : getenv2 "GOOGLE_API_KEY" = none)
    (h3 : getenv2 "OPENAI_API_KEY" = none) (h4 : getenv2 "ANTHROPIC_API_KEY" = none) :
    (create_provider getenv (some name) model (some k)).map AIProvider.name
      = Except.ok name
    ∧ create_provider getenv2 (some name) model none
      = Except.error (missing_credential_message name) := by
  have hk' : (k != "") = true := by simpa using hk
  have e1 : pyLower "gemini" = "gemini" := rfl
  have e2 : pyLower "openai" = "openai" := rfl
  have e3 : pyLower "anthropic" = "anthropic" := rfl
  rcases hname with rfl | rfl | rfl <;>
    exact ⟨by simp [create_provider, pyOrOpt, pyTruthyStr, hk', e1, e2, e3,
                    mkGemini, mkOpenAI, mkAnthropic, Except.map],
           by simp [create_provider, pyOrOpt, pyTruthyStr, h1, h2, h3, h4, e1, e2, e3,
                    missing_credential_message]⟩

/-- C9 witness: the openai factory path with an explicit key, and the
missing-credential failure with an empty environment. -/
theorem claim9_witness :
    (create_provider (fun _ => some "envkey") (some "openai") none (some "sk-123")).map
        AIProvider.name = Except.ok "openai"
    ∧ create_provider (fun _ => none) (some "openai") none none
      = Except.error "OPENAI_API_KEY environment variable required" := by
  have h := claim9_factory (fun _ => some "envkey") (fun _ => none) none "openai" "sk-123"
    (Or.inr (Or.inl rfl)) (by decide) rfl rfl rfl rfl
  exact ⟨h.1, h.2⟩

/-- C10: provider-name resolution is case-insensitive — a name that
lowercases to one of the three supported names behaves exactly like the
lowercase name, and a non-empty name whose lowercase form is outside
the closed set is rejected with the unknown-provider error. -/
theorem claim10_case_insensitive (getenv : String → Option String)
    (model api_key : Option String) (s t : String)
    (hs : s ≠ "") (hlow : pyLower s = t)
    (hmem : t = "gemini" ∨ t = "openai" ∨ t = "anthropic") :
    create_provider getenv (some s) model api_key
      = create_provider getenv (some t) model api_key
    ∧ ∀ u : String, u ≠ "" → pyLower u ≠ "gemini" → pyLower u ≠ "openai" →
        pyLower u ≠ "anthropic" →
        create_provider getenv (some u) model api_key
          = Except.error
              ("Unknown provider: " ++ pyLower u ++ ". Supported: gemini, openai, anthropic") := by
  have e1 : pyLower "gemini" = "gemini" := rfl
  have e2 : pyLower "openai" = "openai" := rfl
  have e3 : pyLower "anthropic" = "anthropic" := rfl
  constructor
  · have hs' : (s != "") = true := by simpa using hs
    rcases hmem with rfl | rfl | rfl <;>
      simp [create_provider, pyOrOpt, pyTruthyStr, hs', hlow, e1, e2, e3]
  · intro u hu h1 h2 h3
    have hu' : (u != "") = true := by simpa using hu
    simp [create_provider, pyOrOpt, pyTruthyStr, hu', h1, h2, h3]

/-- C10 witness: "GEMINI" behaves like "gemini"; "Bogus" is rejected as
unknown. -/
theorem claim10_witness :
    create_provider (fun _ => none) (some "GEMINI") none (some "k")
      = create_provider (fun _ => none) (some "gemini") none (some "k")
    ∧ create_provider (fun _ => none) (some "Bogus") none (some "k")
      = Except.error "Unknown provider: bogus. Supported: gemini, openai, anthropic" := by
  have h := claim10_case_insensitive (fun _ => none) none (some "k") "GEMINI" "gemini"
    (by decide) (by decide) (Or.inl rfl)
  exact ⟨h.1, h.2 "Bogus" (by decide) (by decide) (by decide) (by decide)⟩

end W7RP
